import Mathlib

/-!
Verification of the Eco-Num-ESIEE back-end core (`src/back-end/src/main.py`,
`src/back-end/src/GlobalConsumption.py`, `src/back-end/src/RedisClient.py`)
against its natural-language specification.

Modelling conventions:
* Python floats are modelled as exact rationals `ℚ` (the ledger claims speak of
  exactness "within float tolerance"; rational arithmetic is the idealisation of
  that).  The one place where a genuinely irrational operation occurs
  (`current ** 1.4` in `d_tc_dt`) is modelled over `ℝ` with `Real.rpow`,
  matching Python's `**` on a non-negative base.
* `scipy.integrate.odeint` is an external collaborator.  It is modelled as an
  opaque solver parameter together with its documented contract: the returned
  solution array has one row per requested time point and its first row is the
  initial value `y0`.
* Exceptions are modelled with `Except PyError`.  The error constructors cover
  both the abstract taxonomy named by the specification (`invalidParameter`)
  and the concrete Python exceptions the code can actually produce.
-/

/-- Errors of the embedded program.  `invalidParameter` is the distinguished
validation error named by the specification's error taxonomy; the remaining
constructors model the concrete Python exceptions the source can raise:
`zeroStep` (`np.arange` / `range` with step 0), `indexError` (`tc_sol[-1]` on an
empty solution), `valueError` (Python `ValueError`, also used for the generic
re-raise in `simulate_cable_temperature_with_consumption`). -/
inductive PyError where
  | invalidParameter
  | zeroStep
  | indexError
  | valueError
  deriving DecidableEq, Repr

/-- `np.arange(start, stop, step)` on exact rationals: the points
`start + i * step` for `0 ≤ i < max 0 ⌈(stop - start) / step⌉`; a zero step
raises (numpy refuses a zero step). -/
def np_arange (start stop step : ℚ) : Except PyError (List ℚ) :=
  if step = 0 then .error .zeroStep
  else
    let n : ℤ := ⌈(stop - start) / step⌉
    .ok ((List.range n.toNat).map fun (i : ℕ) => start + (i : ℚ) * step)

/-- Type of the external ODE solver (`scipy.integrate.odeint` applied to
`d_tc_dt`).  Arguments mirror the call
`odeint(d_tc_dt, y0, t, args=(ambient, wind, current), hmax=step)`:
ambient temperature, wind speed, current intensity, `hmax`, initial value `y0`,
and the time grid; the result is the solution column. -/
def OdeSolver : Type :=
  ℚ → ℚ → ℚ → ℚ → ℚ → List ℚ → List ℚ

/-- The documented `odeint` contract: the solution has one row per requested
time point, and (for a nonempty grid) the first row is the initial value. -/
def OdeintContract (solver : OdeSolver) : Prop :=
  ∀ a w c hm y0 t, (solver a w c hm y0 t).length = t.length ∧
    (t ≠ [] → (solver a w c hm y0 t).head? = some y0)

/-- A trivial solver satisfying the `odeint` contract (constant solution),
used to instantiate parametric theorems on concrete inputs. -/
def constSolver : OdeSolver :=
  fun _ _ _ _ y0 t => t.map fun _ => y0

/-- `simulate_cable_temperature` (main.py, lines 152–185): builds the time grid
`np.arange(0, simulation_duration_seconds, time_step)`, runs the external
solver on it, and returns `float(tc_sol[-1])`; taking the last element of an
empty solution raises `IndexError`.  There is no parameter validation.
Wall-clock timing (`time.time()`) is outside the model. -/
def simulate_cable_temperature (solver : OdeSolver)
    (ambient_temperature wind_speed current_intensity cable_temperature_initial : ℚ)
    (simulation_duration_seconds : ℤ) (time_step : ℚ) : Except PyError ℚ :=
  match np_arange 0 (simulation_duration_seconds : ℚ) time_step with
  | .error e => .error e
  | .ok time_s =>
    let tc_sol := solver ambient_temperature wind_speed current_intensity
      time_step cable_temperature_initial time_s
    match tc_sol.getLast? with
    | some v => .ok v
    | none => .error .indexError

/-- Events of the consumption meter (`codecarbon.EmissionsTracker`). -/
inductive MeterEvent where
  | start
  | stop
  deriving DecidableEq, Repr

/-- Result model of `CableTemperatureConsumptionSimulationResponse` (the
wall-clock execution time field is outside the model). -/
structure WindowResp where
  final_temperature : ℚ
  energy_used : ℚ
  co2_emissions : ℚ
  deriving DecidableEq, Repr

/-- `simulate_cable_temperature_with_consumption` (main.py, lines 188–237):
creates a tracker, then inside `try`: `tracker.start()`, runs the simulation,
`tracker.stop()` and reads the measured energy, and returns the composed
response; on any exception the `except` block calls `tracker.stop()` and
re-raises a generic `ValueError`.  The meter's measured outputs are the
external parameters `meterEnergy`/`meterCo2`; the second component of the
result is the ordered trace of meter events on the taken path. -/
def simulate_cable_temperature_with_consumption (solver : OdeSolver)
    (meterEnergy meterCo2 : ℚ)
    (ambient_temperature wind_speed current_intensity cable_temperature_initial : ℚ)
    (simulation_duration_seconds : ℤ) (time_step : ℚ) :
    Except PyError WindowResp × List MeterEvent :=
  match simulate_cable_temperature solver ambient_temperature wind_speed
      current_intensity cable_temperature_initial simulation_duration_seconds time_step with
  | .ok ft =>
      (.ok ⟨ft, meterEnergy, meterCo2⟩, [MeterEvent.start, MeterEvent.stop])
  | .error _ =>
      (.error .valueError, [MeterEvent.start, MeterEvent.stop])

/-- Length of Python `range(start, stop, step)`; a zero step raises. -/
def pyRangeLen (start stop step : ℤ) : Except PyError ℕ :=
  if step = 0 then .error .zeroStep
  else .ok (max 0 ⌈((stop - start : ℤ) : ℚ) / (step : ℚ)⌉).toNat

/-- One window of a series: the initial temperature fed into the window and the
fields of the window's response.  `init` records the value of
`current_cable_temperature` at the start of the loop iteration. -/
structure WindowRec where
  init : ℚ
  final : ℚ
  energy : ℚ
  co2 : ℚ
  deriving DecidableEq, Repr

/-- The loop body of `simulate_cable_temperature_over_x_minutes_with_consumption`
(main.py, lines 267–282), iterated a fixed number of times: each iteration runs
one consumption-measured window at the current cable temperature and feeds the
returned `final_temperature` into the next iteration; an exception aborts the
whole loop (nothing partial is returned). -/
def seriesLoop (solver : OdeSolver) (meterEnergy meterCo2 : ℚ)
    (ambient_temperature wind_speed current_intensity : ℚ)
    (simulation_duration : ℤ) (time_step : ℚ) :
    ℕ → ℚ → Except PyError (List WindowRec)
  | 0, _ => .ok []
  | n + 1, t0 =>
    match (simulate_cable_temperature_with_consumption solver meterEnergy meterCo2
        ambient_temperature wind_speed current_intensity t0
        simulation_duration time_step).1 with
    | .error e => .error e
    | .ok w =>
      match seriesLoop solver meterEnergy meterCo2 ambient_temperature wind_speed
          current_intensity simulation_duration time_step n w.final_temperature with
      | .error e => .error e
      | .ok ws => .ok (⟨t0, w.final_temperature, w.energy_used, w.co2_emissions⟩ :: ws)

/-- The windows produced by
`simulate_cable_temperature_over_x_minutes_with_consumption` (main.py, lines
240–293): `temps = number_of_repetition * simulation_duration` and the loop
runs over `range(0, temps, simulation_duration)`, starting from the
caller-supplied initial cable temperature. -/
def runSeriesWindows (solver : OdeSolver) (meterEnergy meterCo2 : ℚ)
    (number_of_repetition simulation_duration : ℤ) (time_step : ℚ)
    (ambient_temperature wind_speed current_intensity cable_temperature_initial : ℚ) :
    Except PyError (List WindowRec) :=
  match pyRangeLen 0 (number_of_repetition * simulation_duration) simulation_duration with
  | .error e => .error e
  | .ok count =>
    seriesLoop solver meterEnergy meterCo2 ambient_temperature wind_speed
      current_intensity simulation_duration time_step count cable_temperature_initial

/-- Result model of `MultipleCableTemperatureConsumptionSimulationResponse`
(wall-clock fields outside the model). -/
structure SeriesResp where
  final_temperature_list : List ℚ
  time_points_list : List ℚ
  energy_used_list : List ℚ
  cumulative_energy_used : ℚ
  co2_emissions_list : List ℚ
  cumulative_co2_emissions : ℚ
  deriving DecidableEq, Repr

/-- `simulate_cable_temperature_over_x_minutes_with_consumption`: the response
assembled from the windows (`time_points_list` collects `tmp +
simulation_duration` for `tmp = 0, D, 2D, ...`). -/
def simulate_cable_temperature_over_x_minutes_with_consumption (solver : OdeSolver)
    (meterEnergy meterCo2 : ℚ)
    (number_of_repetition simulation_duration : ℤ) (time_step : ℚ)
    (ambient_temperature wind_speed current_intensity cable_temperature_initial : ℚ) :
    Except PyError SeriesResp :=
  match runSeriesWindows solver meterEnergy meterCo2 number_of_repetition
      simulation_duration time_step ambient_temperature wind_speed
      current_intensity cable_temperature_initial with
  | .error e => .error e
  | .ok ws =>
    .ok { final_temperature_list := ws.map (·.final)
          time_points_list :=
            (List.range ws.length).map fun i => ((i : ℚ) + 1) * (simulation_duration : ℚ)
          energy_used_list := ws.map (·.energy)
          cumulative_energy_used := (ws.map (·.energy)).sum
          co2_emissions_list := ws.map (·.co2)
          cumulative_co2_emissions := (ws.map (·.co2)).sum }

/-- The chaining property of a window list: the first window starts at `t0` and
each later window starts at the previous window's final temperature. -/
def chainedFrom (t0 : ℚ) : List WindowRec → Prop
  | [] => True
  | w :: ws => w.init = t0 ∧ chainedFrom w.final ws

/-! ## The derivative `d_tc_dt`

The one genuinely real-valued function of the code: `current_intensity ** 1.4`
is modelled with `Real.rpow`, which agrees with Python `**` on a non-negative
base. -/

/-- `d_tc_dt` (main.py, lines 131–149), translated term by term:
`a = ((wind_speed ** 2) / 1600) * 0.4 + 0.1`,
`b = ((current_intensity ** 1.4) / 73785) * 130`,
result `-(1 / 60) * a * (cable_temperature_initial - ambient_temperature - b)`.
Deterministic and side-effect-free by construction (a pure function; the
source touches no state). -/
noncomputable def d_tc_dt (cable_temperature_initial time_s ambient_temperature
    wind_speed current_intensity : ℝ) : ℝ :=
  let a : ℝ := ((wind_speed ^ 2) / 1600) * 0.4 + 0.1
  let b : ℝ := ((current_intensity ^ (1.4 : ℝ)) / 73785) * 130
  show ℝ from -(1 / 60) * a * (cable_temperature_initial - ambient_temperature - b)

/-- The formula stated by the specification for `derivative`: with
`a = (windSpeed² / 1600) × 0.4 + 0.1` and `b = (current^1.4 / 73785) × 130`,
the result is `-(1/60) × a × (currentTemp - ambientTemp - b)`. -/
noncomputable def derivative_spec (currentTemp t ambientTemp windSpeed current : ℝ) : ℝ :=
  -(1 / 60) * ((windSpeed ^ 2 / 1600) * 0.4 + 0.1) *
    (currentTemp - ambientTemp - (current ^ (1.4 : ℝ) / 73785) * 130)

/-! ## The consumption ledger (`GlobalConsumption.py`)

The Redis store holds six string-valued keys.  Scalars and units are modelled
as the stored strings; a list key holds the separator-joined string, modelled
as its token list (the join/split pair round-trips because formatted floats
are nonempty and never contain the separator `|`, which the specification's
design notes record as the standing assumption of the encoding).  Marshalling
of numbers is parametric in a formatter/parser pair; Python's `str`/`float`
satisfy the `FaithfulCodec` contract on the float domain because `repr` of a
float round-trips exactly. -/

/-- `DefaultValues` (GlobalConsumption.py, lines 6–27). -/
structure DefaultValues where
  energy_used : ℚ := 0
  energy_used_list : List ℚ := []
  energy_used_unit : String := "kWh"
  co2_emissions : ℚ := 0
  co2_emissions_list : List ℚ := []
  co2_emissions_unit : String := "kgCO2"
  separator : String := "|"
  deriving DecidableEq, Repr

/-- The default values as configured by `GlobalConsumption.__init__`, which
overwrites only the two unit fields. -/
def mkDefaults (energy_used_unit co2_emissions_unit : String) : DefaultValues :=
  { energy_used_unit := energy_used_unit, co2_emissions_unit := co2_emissions_unit }

/-- The in-memory attributes of a `GlobalConsumption` instance. -/
structure LedgerMem where
  energy_used : ℚ
  energy_used_list : List ℚ
  energy_used_unit : String
  co2_emissions : ℚ
  co2_emissions_list : List ℚ
  co2_emissions_unit : String
  deriving DecidableEq, Repr

/-- The six persisted Redis keys.  `none` models an absent key; a list key
holds the separator-joined string as its token list. -/
structure RedisStore where
  energy_used : Option String
  co2_emissions : Option String
  energy_used_list : Option (List String)
  co2_emissions_list : Option (List String)
  energy_used_unit : Option String
  co2_emissions_unit : Option String
  deriving DecidableEq, Repr

/-- `float(x)` applied to one stored token: parse failure raises `ValueError`
(Python's `float` on an unparsable string). -/
def parseTok (parse : String → Option ℚ) (s : String) : Except PyError ℚ :=
  match parse s with
  | some q => .ok q
  | none => .error .valueError

/-- One scalar read of `_load_from_redis`:
`float(self.redis_client.get(key) or default)`.  `or` takes the default when
the stored value is absent or the empty string (Python falsiness); otherwise
the stored string goes through `float`, which raises on an unparsable value. -/
def loadScalar (parse : String → Option ℚ) (v : Option String) (default : ℚ) :
    Except PyError ℚ :=
  match v with
  | none => .ok default
  | some s => if s = "" then .ok default else parseTok parse s

/-- One list read of `_load_from_redis`:
`[float(x) for x in ((get(key) or "").split(sep)) if x] or default`.
At token level: an absent key contributes no tokens, empty tokens are filtered
out by `if x`, each remaining token goes through `float` (raising on an
unparsable one), and an empty decoded list falls back to the default list. -/
def loadList (parse : String → Option ℚ) (v : Option (List String))
    (default : List ℚ) : Except PyError (List ℚ) :=
  match (v.getD []).filter (fun x => x ≠ "") |>.mapM (parseTok parse) with
  | .error e => .error e
  | .ok qs => .ok (if qs = [] then default else qs)

/-- One unit read of `_load_from_redis`: `get(key) or default`. -/
def loadUnit (v : Option String) (default : String) : String :=
  match v with
  | none => default
  | some s => if s = "" then default else s

/-- Python `l[-10:]`: the last (at most) 10 elements. -/
def takeLast10 (l : List α) : List α := l.drop (l.length - 10)

/-- `_save_to_redis` (GlobalConsumption.py, lines 105–120): writes all six keys
from the in-memory state (scalars and list elements through the formatter,
units verbatim); every key is overwritten, so the resulting store does not
depend on the previous one. -/
def save_to_redis (fmt : ℚ → String) (m : LedgerMem) : RedisStore :=
  { energy_used := some (fmt m.energy_used)
    co2_emissions := some (fmt m.co2_emissions)
    energy_used_list := some (m.energy_used_list.map fmt)
    co2_emissions_list := some (m.co2_emissions_list.map fmt)
    energy_used_unit := some m.energy_used_unit
    co2_emissions_unit := some m.co2_emissions_unit }

/-- `_load_from_redis` (GlobalConsumption.py, lines 68–103): reads the two
scalars, the two lists and the two units (in the source's order), truncates
both lists to their last 10 entries, and immediately writes the normalised
state back (`self._save_to_redis()`).  Returns the new in-memory state and the
written-back store. -/
def load_from_redis (fmt : ℚ → String) (parse : String → Option ℚ)
    (dv : DefaultValues) (st : RedisStore) : Except PyError (LedgerMem × RedisStore) :=
  match loadScalar parse st.energy_used dv.energy_used with
  | .error e => .error e
  | .ok energy =>
  match loadScalar parse st.co2_emissions dv.co2_emissions with
  | .error e => .error e
  | .ok co2 =>
  match loadList parse st.energy_used_list dv.energy_used_list with
  | .error e => .error e
  | .ok elist =>
  match loadList parse st.co2_emissions_list dv.co2_emissions_list with
  | .error e => .error e
  | .ok clist =>
    let m : LedgerMem :=
      { energy_used := energy
        energy_used_list := takeLast10 elist
        energy_used_unit := loadUnit st.energy_used_unit dv.energy_used_unit
        co2_emissions := co2
        co2_emissions_list := takeLast10 clist
        co2_emissions_unit := loadUnit st.co2_emissions_unit dv.co2_emissions_unit }
    .ok (m, save_to_redis fmt m)

/-- `_save` (GlobalConsumption.py, lines 122–128): `_save_to_redis()` followed
by `_load_from_redis()`. -/
def gc_save (fmt : ℚ → String) (parse : String → Option ℚ) (dv : DefaultValues)
    (m : LedgerMem) : Except PyError (LedgerMem × RedisStore) :=
  load_from_redis fmt parse dv (save_to_redis fmt m)

/-- `GlobalConsumption.update` (lines 130–140): add the deltas to the totals,
append each delta to its history list, then `_save()`. -/
def gc_update (fmt : ℚ → String) (parse : String → Option ℚ) (dv : DefaultValues)
    (energy_used co2_emissions : ℚ) (m : LedgerMem) :
    Except PyError (LedgerMem × RedisStore) :=
  gc_save fmt parse dv
    { m with
      energy_used := m.energy_used + energy_used
      co2_emissions := m.co2_emissions + co2_emissions
      energy_used_list := m.energy_used_list ++ [energy_used]
      co2_emissions_list := m.co2_emissions_list ++ [co2_emissions] }

/-- `GlobalConsumption.update_list` (lines 142–160): add the aggregate deltas
to the totals, extend each history list by the provided per-window list, then
`_save()`. -/
def gc_update_list (fmt : ℚ → String) (parse : String → Option ℚ)
    (dv : DefaultValues) (energy_used co2_emissions : ℚ)
    (energy_used_list co2_emissions_list : List ℚ) (m : LedgerMem) :
    Except PyError (LedgerMem × RedisStore) :=
  gc_save fmt parse dv
    { m with
      energy_used := m.energy_used + energy_used
      co2_emissions := m.co2_emissions + co2_emissions
      energy_used_list := m.energy_used_list ++ energy_used_list
      co2_emissions_list := m.co2_emissions_list ++ co2_emissions_list }

/-- `GlobalConsumption.reset` (lines 162–170): totals and history lists go back
to the configured defaults; the unit attributes are not assigned; then
`_save()`. -/
def gc_reset (fmt : ℚ → String) (parse : String → Option ℚ) (dv : DefaultValues)
    (m : LedgerMem) : Except PyError (LedgerMem × RedisStore) :=
  gc_save fmt parse dv
    { m with
      energy_used := dv.energy_used
      co2_emissions := dv.co2_emissions
      energy_used_list := dv.energy_used_list
      co2_emissions_list := dv.co2_emissions_list }

/-- A sequence of `update` calls, each starting from the in-memory state the
previous one produced (the store is rewritten in full by every save). -/
def gc_updateSeq (fmt : ℚ → String) (parse : String → Option ℚ)
    (dv : DefaultValues) : List (ℚ × ℚ) → LedgerMem → Except PyError LedgerMem
  | [], m => .ok m
  | d :: ds, m =>
    match gc_update fmt parse dv d.1 d.2 m with
    | .error e => .error e
    | .ok (m1, _) => gc_updateSeq fmt parse dv ds m1

/-- A formatter/parser pair is faithful when parsing undoes formatting and no
formatted value is the empty string (so the `or` falsiness test never replaces
a stored value).  Python's `str`/`float` satisfy this on the float domain. -/
structure FaithfulCodec (fmt : ℚ → String) (parse : String → Option ℚ) : Prop where
  round : ∀ q, parse (fmt q) = some q
  nonempty : ∀ q, fmt q ≠ ""

/-! ### A concrete faithful codec

Used to instantiate the parametric ledger theorems on concrete inputs.  The
encoding is a simple tally representation `[-]I…I/I…I` (numerator, slash,
denominator); what matters is only that it satisfies `FaithfulCodec`, as
Python's `str`/`float` do on the float domain. -/

/-- Tally-encode a rational as a string. -/
def encQ (q : ℚ) : String :=
  ⟨(if q.num < 0 then ['-'] else []) ++
    List.replicate q.num.natAbs 'I' ++ '/' :: List.replicate q.den 'I'⟩

/-- Decode the unsigned part of a tally string. -/
def decQnn (cs : List Char) : Option ℚ :=
  let nPart := cs.takeWhile fun c => c = 'I'
  match cs.dropWhile fun c => c = 'I' with
  | '/' :: dPart =>
    if dPart.all (fun c => c = 'I') && !dPart.isEmpty then
      some ((nPart.length : ℚ) / (dPart.length : ℚ))
    else none
  | _ => none

/-- Decode a tally string. -/
def decQ (s : String) : Option ℚ :=
  if s.data.head? = some '-' then (decQnn s.data.tail).map fun q => -q
  else decQnn s.data

/-! ### A model of Python `float()` on decimal literals

Used for the claims about `_load_from_redis` on raw stored strings.  It
accepts `[sign] digits [. digits] [(e|E) [sign] digits]` (with at least one
digit around the point), the grammar of finite decimal literals; the special
literals `inf`/`nan` are outside the model (no claim involves them, and `ℚ`
has no value for them). -/

/-- Digit list to the natural number it denotes (most significant first). -/
def digitsToNat (ds : List Char) : ℕ :=
  ds.foldl (fun n c => 10 * n + (c.toNat - '0'.toNat)) 0

/-- Strip an optional sign, returning whether it was `-` and the rest. -/
def stripSignChar : List Char → Bool × List Char
  | '-' :: cs => (true, cs)
  | '+' :: cs => (false, cs)
  | cs => (false, cs)

/-- Parse the optional exponent suffix and apply it to the mantissa. -/
def applyExp (mant : ℚ) : List Char → Option ℚ
  | [] => some mant
  | c :: cs =>
    if c = 'e' ∨ c = 'E' then
      let sr := stripSignChar cs
      let ds := sr.2.takeWhile Char.isDigit
      if ds.isEmpty || !(sr.2.dropWhile Char.isDigit).isEmpty then none
      else some (mant * (if sr.1 then 1 / 10 ^ digitsToNat ds else 10 ^ digitsToNat ds))
    else none

/-- Parse an unsigned decimal literal (mantissa plus optional exponent). -/
def parseUnsigned (cs : List Char) : Option ℚ :=
  let ip := cs.takeWhile Char.isDigit
  match cs.dropWhile Char.isDigit with
  | '.' :: cs2 =>
    let fp := cs2.takeWhile Char.isDigit
    if ip.isEmpty && fp.isEmpty then none
    else applyExp ((digitsToNat ip : ℚ) + (digitsToNat fp : ℚ) / 10 ^ fp.length)
      (cs2.dropWhile Char.isDigit)
  | rest =>
    if ip.isEmpty then none
    else applyExp (digitsToNat ip : ℚ) rest

/-- Python `float(s)` on a finite decimal literal: `none` models the
`ValueError` that `float` raises on a string it cannot parse. -/
def pyFloat (s : String) : Option ℚ :=
  let sr := stripSignChar s.data
  match parseUnsigned sr.2 with
  | some q => some (if sr.1 then -q else q)
  | none => none

/-! ### Pure descriptions of what one ledger operation produces -/

/-- What `_load_from_redis` leaves in memory when the store it reads was just
written from `m` by `_save_to_redis` (faithful codec, default lists empty):
the numeric values survive, the history lists are truncated to their last 10
entries, and an empty unit string is replaced by the configured default. -/
def reloadNorm (dv : DefaultValues) (m : LedgerMem) : LedgerMem :=
  { energy_used := m.energy_used
    energy_used_list := takeLast10 m.energy_used_list
    energy_used_unit :=
      if m.energy_used_unit = "" then dv.energy_used_unit else m.energy_used_unit
    co2_emissions := m.co2_emissions
    co2_emissions_list := takeLast10 m.co2_emissions_list
    co2_emissions_unit :=
      if m.co2_emissions_unit = "" then dv.co2_emissions_unit else m.co2_emissions_unit }

/-- The in-memory effect of one `update(e, c)` (mutation followed by the
normalising reload). -/
def updateModel (dv : DefaultValues) (e c : ℚ) (m : LedgerMem) : LedgerMem :=
  reloadNorm dv
    { m with
      energy_used := m.energy_used + e
      co2_emissions := m.co2_emissions + c
      energy_used_list := m.energy_used_list ++ [e]
      co2_emissions_list := m.co2_emissions_list ++ [c] }

/-- Iterated `updateModel` over a list of deltas. -/
def seqModel (dv : DefaultValues) : List (ℚ × ℚ) → LedgerMem → LedgerMem
  | [], m => m
  | d :: ds, m => seqModel dv ds (updateModel dv d.1 d.2 m)

/-! # Theorems -/

/-! ### The constant solver satisfies the `odeint` contract -/

theorem constSolver_contract : OdeintContract constSolver := by
  intro a w c hm y0 t
  constructor
  · simp [constSolver]
  · intro ht
    cases t with
    | nil => exact absurd rfl ht
    | cons x xs => simp [constSolver]

/-! ### The tally codec is faithful -/

theorem takeWhile_tally (n : ℕ) (t : List Char) :
    (List.replicate n 'I' ++ '/' :: t).takeWhile (fun c => c = 'I')
      = List.replicate n 'I' := by
  induction n with
  | zero => simp
  | succ k ih => simp [List.replicate_succ]

theorem dropWhile_tally (n : ℕ) (t : List Char) :
    (List.replicate n 'I' ++ '/' :: t).dropWhile (fun c => c = 'I') = '/' :: t := by
  induction n with
  | zero => simp
  | succ k ih => simp [List.replicate_succ]

theorem decQnn_tally (n d : ℕ) (hd : d ≠ 0) :
    decQnn (List.replicate n 'I' ++ '/' :: List.replicate d 'I')
      = some ((n : ℚ) / (d : ℚ)) := by
  unfold decQnn
  rw [takeWhile_tally, dropWhile_tally]
  simp [List.all_eq_true, List.isEmpty_iff, hd, List.eq_replicate_iff]

theorem head?_tally (n : ℕ) (t : List Char) :
    (List.replicate n 'I' ++ '/' :: t).head? = some (if n = 0 then '/' else 'I') := by
  cases n with
  | zero => simp
  | succ k => simp [List.replicate_succ]

theorem encQ_faithful : FaithfulCodec encQ decQ := by
  constructor
  · intro q
    rcases lt_or_le q.num 0 with hneg | hpos
    · have henc : encQ q = ⟨'-' :: (List.replicate q.num.natAbs 'I' ++
          '/' :: List.replicate q.den 'I')⟩ := by
        simp [encQ, hneg]
      have hval : ((q.num.natAbs : ℚ) / (q.den : ℚ)) = -q := by
        rw [Int.cast_natAbs, abs_of_neg hneg]
        push_cast
        rw [neg_div, Rat.num_div_den]
      rw [henc]
      unfold decQ
      simp only [List.head?_cons, List.tail_cons]
      rw [if_pos trivial]
      rw [decQnn_tally q.num.natAbs q.den q.den_pos.ne']
      simp [hval]
    · have henc : encQ q = ⟨List.replicate q.num.natAbs 'I' ++
          '/' :: List.replicate q.den 'I'⟩ := by
        simp [encQ, not_lt.mpr hpos]
      have hval : ((q.num.natAbs : ℚ) / (q.den : ℚ)) = q := by
        rw [Int.cast_natAbs, abs_of_nonneg hpos]
        rw [Rat.num_div_den]
      rw [henc]
      unfold decQ
      rw [head?_tally]
      rw [if_neg (by split <;> simp)]
      rw [decQnn_tally q.num.natAbs q.den q.den_pos.ne', hval]
  · intro q h
    have hdata : ((if q.num < 0 then ['-'] else []) ++
        List.replicate q.num.natAbs 'I' ++ '/' :: List.replicate q.den 'I')
          = [] := congrArg String.data h
    simp at hdata

/-! ### Arithmetic of the `[-10:]` truncation -/

theorem takeLast10_length (l : List α) : (takeLast10 l).length = min 10 l.length := by
  simp only [takeLast10, List.length_drop]
  omega

theorem takeLast10_of_le (l : List α) (h : l.length ≤ 10) : takeLast10 l = l := by
  unfold takeLast10
  rw [show l.length - 10 = 0 by omega]
  exact List.drop_zero l

theorem takeLast10_append_ge (l₁ l₂ : List α) (h : 10 ≤ l₂.length) :
    takeLast10 (l₁ ++ l₂) = takeLast10 l₂ := by
  unfold takeLast10
  rw [List.length_append,
    show l₁.length + l₂.length - 10 = l₁.length + (l₂.length - 10) by omega,
    List.drop_append]

theorem takeLast10_takeLast10_append (l₁ l₂ : List α) :
    takeLast10 (takeLast10 l₁ ++ l₂) = takeLast10 (l₁ ++ l₂) := by
  rcases le_or_lt 10 l₂.length with h2 | h2
  · rw [takeLast10_append_ge _ _ h2, takeLast10_append_ge _ _ h2]
  · rcases le_or_lt l₁.length 10 with h1 | h1
    · rw [takeLast10_of_le _ h1]
    · have hlen : (List.drop (l₁.length - 10) l₁).length = 10 := by
        rw [List.length_drop]; omega
      unfold takeLast10
      rw [List.length_append, hlen, List.length_append]
      rw [show 10 + l₂.length - 10 = l₂.length by omega]
      have hsplit : takeLast10 l₁ ++ l₂ = (l₁ ++ l₂).drop (l₁.length - 10) := by
        unfold takeLast10
        rw [List.drop_append_of_le_length (by omega)]
      unfold takeLast10 at hsplit
      rw [hsplit, List.drop_drop]
      congr 1
      omega

/-! ### The save→load round trip under a faithful codec -/

theorem mapM_parseTok_map (fmt : ℚ → String) (parse : String → Option ℚ)
    (hr : ∀ q, parse (fmt q) = some q) (l : List ℚ) :
    (l.map fmt).mapM (parseTok parse) = Except.ok l := by
  induction l with
  | nil => rfl
  | cons a as ih =>
    simp only [List.map_cons, List.mapM_cons, parseTok, hr a, ih]
    rfl

theorem filter_map_ne_empty (fmt : ℚ → String) (hne : ∀ q, fmt q ≠ "") (l : List ℚ) :
    (l.map fmt).filter (fun x => x ≠ "") = l.map fmt := by
  rw [List.filter_eq_self]
  intro a ha
  rcases List.mem_map.mp ha with ⟨q, _, rfl⟩
  simp [hne q]

theorem loadList_saved (fmt : ℚ → String) (parse : String → Option ℚ)
    (hc : FaithfulCodec fmt parse) (l : List ℚ) :
    loadList parse (some (l.map fmt)) [] = .ok l := by
  unfold loadList
  rw [show (some (l.map fmt)).getD [] = l.map fmt from rfl,
    filter_map_ne_empty fmt hc.nonempty l,
    mapM_parseTok_map fmt parse hc.round l]
  cases l <;> simp

theorem loadScalar_saved (fmt : ℚ → String) (parse : String → Option ℚ)
    (hc : FaithfulCodec fmt parse) (q d : ℚ) :
    loadScalar parse (some (fmt q)) d = .ok q := by
  show (if fmt q = "" then Except.ok d else parseTok parse (fmt q)) = Except.ok q
  rw [if_neg (hc.nonempty q)]
  unfold parseTok
  rw [hc.round q]

theorem gc_save_eq (fmt : ℚ → String) (parse : String → Option ℚ)
    (hc : FaithfulCodec fmt parse) (dv : DefaultValues)
    (h1 : dv.energy_used_list = []) (h2 : dv.co2_emissions_list = [])
    (m : LedgerMem) :
    gc_save fmt parse dv m
      = .ok (reloadNorm dv m, save_to_redis fmt (reloadNorm dv m)) := by
  unfold gc_save load_from_redis
  rw [show (save_to_redis fmt m).energy_used = some (fmt m.energy_used) from rfl,
    show (save_to_redis fmt m).co2_emissions = some (fmt m.co2_emissions) from rfl,
    show (save_to_redis fmt m).energy_used_list
      = some (m.energy_used_list.map fmt) from rfl,
    show (save_to_redis fmt m).co2_emissions_list
      = some (m.co2_emissions_list.map fmt) from rfl,
    loadScalar_saved fmt parse hc, loadScalar_saved fmt parse hc,
    h1, h2, loadList_saved fmt parse hc, loadList_saved fmt parse hc]
  rfl

theorem gc_update_eq (fmt : ℚ → String) (parse : String → Option ℚ)
    (hc : FaithfulCodec fmt parse) (eu cu : String) (e c : ℚ) (m : LedgerMem) :
    gc_update fmt parse (mkDefaults eu cu) e c m
      = .ok (updateModel (mkDefaults eu cu) e c m,
          save_to_redis fmt (updateModel (mkDefaults eu cu) e c m)) := by
  unfold gc_update updateModel
  exact gc_save_eq fmt parse hc _ rfl rfl _

theorem gc_updateSeq_eq (fmt : ℚ → String) (parse : String → Option ℚ)
    (hc : FaithfulCodec fmt parse) (eu cu : String) (ds : List (ℚ × ℚ)) :
    ∀ m, gc_updateSeq fmt parse (mkDefaults eu cu) ds m
      = .ok (seqModel (mkDefaults eu cu) ds m) := by
  induction ds with
  | nil => intro m; rfl
  | cons d ds ih =>
    intro m
    unfold gc_updateSeq
    rw [gc_update_eq fmt parse hc]
    exact ih _

theorem updateModel_energy (dv : DefaultValues) (e c : ℚ) (m : LedgerMem) :
    (updateModel dv e c m).energy_used = m.energy_used + e ∧
    (updateModel dv e c m).co2_emissions = m.co2_emissions + c := ⟨rfl, rfl⟩

theorem updateModel_lists (dv : DefaultValues) (e c : ℚ) (m : LedgerMem) :
    (updateModel dv e c m).energy_used_list = takeLast10 (m.energy_used_list ++ [e]) ∧
    (updateModel dv e c m).co2_emissions_list
      = takeLast10 (m.co2_emissions_list ++ [c]) := ⟨rfl, rfl⟩

theorem seqModel_totals (dv : DefaultValues) (ds : List (ℚ × ℚ)) :
    ∀ m, (seqModel dv ds m).energy_used
        = m.energy_used + (ds.map Prod.fst).sum ∧
      (seqModel dv ds m).co2_emissions
        = m.co2_emissions + (ds.map Prod.snd).sum := by
  induction ds with
  | nil => intro m; simp [seqModel]
  | cons d ds ih =>
    intro m
    unfold seqModel
    rcases ih (updateModel dv d.1 d.2 m) with ⟨h1, h2⟩
    rw [h1, h2]
    constructor
    · show m.energy_used + d.1 + (ds.map Prod.fst).sum = _
      simp [add_assoc]
    · show m.co2_emissions + d.2 + (ds.map Prod.snd).sum = _
      simp [add_assoc]

theorem seqModel_lists (dv : DefaultValues) (ds : List (ℚ × ℚ)) (hds : ds ≠ []) :
    ∀ m, (seqModel dv ds m).energy_used_list
        = takeLast10 (m.energy_used_list ++ ds.map Prod.fst) ∧
      (seqModel dv ds m).co2_emissions_list
        = takeLast10 (m.co2_emissions_list ++ ds.map Prod.snd) := by
  induction ds with
  | nil => exact absurd rfl hds
  | cons d ds ih =>
    intro m
    unfold seqModel
    cases ds with
    | nil =>
      exact ⟨rfl, rfl⟩
    | cons d2 ds2 =>
      rcases ih (by simp) (updateModel dv d.1 d.2 m) with ⟨h1, h2⟩
      constructor
      · rw [h1]
        show takeLast10 (takeLast10 (m.energy_used_list ++ [d.1])
          ++ (d2 :: ds2).map Prod.fst) = _
        rw [takeLast10_takeLast10_append, List.append_assoc]
        rfl
      · rw [h2]
        show takeLast10 (takeLast10 (m.co2_emissions_list ++ [d.2])
          ++ (d2 :: ds2).map Prod.snd) = _
        rw [takeLast10_takeLast10_append, List.append_assoc]
        rfl

/-! ### The time grid of `simulate_cable_temperature` -/

theorem np_arange_empty (d : ℤ) (s : ℚ) (hd : d ≤ 0) (hs : 0 < s) :
    np_arange 0 (d : ℚ) s = .ok [] := by
  unfold np_arange
  rw [if_neg hs.ne']
  have hr : (d : ℚ) / s ≤ 0 :=
    div_nonpos_iff.mpr (Or.inr ⟨by exact_mod_cast hd, hs.le⟩)
  have hc : (⌈(d : ℚ) / s⌉ : ℤ) ≤ 0 := Int.ceil_le.mpr (by simpa using hr)
  simp [Int.toNat_of_nonpos hc]

theorem np_arange_single (d : ℤ) (s : ℚ) (hd : 0 < d) (hds : (d : ℚ) ≤ s) :
    np_arange 0 (d : ℚ) s = .ok [0] := by
  have hdq : (0 : ℚ) < (d : ℚ) := by exact_mod_cast hd
  have hs : (0 : ℚ) < s := lt_of_lt_of_le hdq hds
  unfold np_arange
  rw [if_neg hs.ne']
  have hc : (⌈(d : ℚ) / s⌉ : ℤ) = 1 :=
    Int.ceil_eq_iff.mpr
      ⟨by simpa using div_pos hdq hs, by simpa using (div_le_one hs).mpr hds⟩
  simp [hc, List.range_succ]

theorem simulate_zero_step (solver : OdeSolver) (a w c t0 : ℚ) (dur : ℤ) :
    simulate_cable_temperature solver a w c t0 dur 0 = .error .zeroStep := by
  unfold simulate_cable_temperature np_arange
  rw [if_pos rfl]

theorem simulate_empty_grid (solver : OdeSolver) (hs : OdeintContract solver)
    (a w c t0 : ℚ) (dur : ℤ) (st : ℚ) (hd : dur ≤ 0) (hst : 0 < st) :
    simulate_cable_temperature solver a w c t0 dur st = .error .indexError := by
  have hlen : (solver a w c st t0 []).length = 0 := by
    rw [(hs a w c st t0 []).1]
    rfl
  unfold simulate_cable_temperature
  rw [np_arange_empty dur st hd hst]
  show (match (solver a w c st t0 []).getLast? with
    | some v => Except.ok v
    | none => Except.error PyError.indexError) = Except.error PyError.indexError
  rw [List.length_eq_zero.mp hlen]
  rfl

theorem simulate_single_point (solver : OdeSolver) (hs : OdeintContract solver)
    (a w c t0 : ℚ) (dur : ℤ) (st : ℚ) (hd : 0 < dur) (hds : (dur : ℚ) ≤ st) :
    simulate_cable_temperature solver a w c t0 dur st = .ok t0 := by
  obtain ⟨hlen, hhead⟩ := hs a w c st t0 [0]
  obtain ⟨x, hx⟩ := List.length_eq_one.mp hlen
  have hx0 : x = t0 := by
    have := hhead (by simp)
    rw [hx] at this
    simpa using this
  unfold simulate_cable_temperature
  rw [np_arange_single dur st hd hds]
  show (match (solver a w c st t0 [0]).getLast? with
    | some v => Except.ok v
    | none => Except.error PyError.indexError) = Except.ok t0
  rw [hx, hx0]
  rfl

theorem simulate_never_invalidParameter (solver : OdeSolver) (a w c t0 : ℚ)
    (dur : ℤ) (st : ℚ) :
    simulate_cable_temperature solver a w c t0 dur st
      ≠ .error .invalidParameter := by
  unfold simulate_cable_temperature
  rcases h : np_arange 0 (dur : ℚ) st with e | grid
  · have he : e = PyError.zeroStep := by
      unfold np_arange at h
      split at h
      · cases h; rfl
      · cases h
    simp [he]
  · show (match (solver a w c st t0 grid).getLast? with
      | some v => Except.ok v
      | none => Except.error PyError.indexError) ≠ Except.error PyError.invalidParameter
    cases hg : (solver a w c st t0 grid).getLast? <;> simp

theorem runWindow_never_invalidParameter (solver : OdeSolver)
    (mE mC a w c t0 : ℚ) (dur : ℤ) (st : ℚ) :
    (simulate_cable_temperature_with_consumption solver mE mC a w c t0 dur st).1
      ≠ .error .invalidParameter := by
  unfold simulate_cable_temperature_with_consumption
  split <;> simp

/-! ### The series loop -/

theorem seriesLoop_ok (solver : OdeSolver) (mE mC a w cI : ℚ) (D : ℤ) (st : ℚ) :
    ∀ (n : ℕ) (t0 : ℚ) (ws : List WindowRec),
      seriesLoop solver mE mC a w cI D st n t0 = .ok ws →
      ws.length = n ∧ chainedFrom t0 ws := by
  intro n
  induction n with
  | zero =>
    intro t0 ws h
    cases ws with
    | nil => exact ⟨rfl, trivial⟩
    | cons x xs => exact absurd h (by simp [seriesLoop])
  | succ k ih =>
    intro t0 ws h
    unfold seriesLoop at h
    rcases hw : (simulate_cable_temperature_with_consumption solver mE mC a w cI t0
        D st).1 with e | wresp
    · rw [hw] at h
      exact absurd h (by simp)
    · rw [hw] at h
      dsimp only at h
      rcases hrest : seriesLoop solver mE mC a w cI D st k
          wresp.final_temperature with e | ws2
      · rw [hrest] at h
        exact absurd h (by simp)
      · rw [hrest] at h
        obtain ⟨hlen, hchain⟩ := ih wresp.final_temperature ws2 hrest
        cases h
        exact ⟨by simp [hlen], rfl, hchain⟩

theorem pyRangeLen_series (N D : ℤ) (hN : 1 ≤ N) (hD : 0 < D) :
    pyRangeLen 0 (N * D) D = .ok N.toNat := by
  unfold pyRangeLen
  rw [if_neg hD.ne']
  have hq : ((N * D - 0 : ℤ) : ℚ) / (D : ℚ) = (N : ℚ) := by
    push_cast
    rw [sub_zero]
    exact mul_div_cancel_right₀ _ (by exact_mod_cast hD.ne')
  rw [hq, Int.ceil_intCast]
  rw [max_eq_right (by omega : (0 : ℤ) ≤ N)]

theorem runWindow_wraps_error (solver : OdeSolver) (mE mC a w c t0 : ℚ)
    (dur : ℤ) (st : ℚ) (e : PyError)
    (h : simulate_cable_temperature solver a w c t0 dur st = .error e) :
    (simulate_cable_temperature_with_consumption solver mE mC a w c t0 dur st).1
      = .error .valueError := by
  unfold simulate_cable_temperature_with_consumption
  rw [h]

/-- Reachability of the unit invariant used by the reset claim: any unit
string produced by a load is nonempty or is the configured default (Python's
`or` replaces a falsy stored unit by the default). -/
theorem loadUnit_inv (v : Option String) (d : String) :
    loadUnit v d ≠ "" ∨ loadUnit v d = d := by
  unfold loadUnit
  cases v with
  | none => exact Or.inr rfl
  | some s =>
    show (if s = "" then d else s) ≠ "" ∨ (if s = "" then d else s) = d
    by_cases hs : s = ""
    · rw [if_pos hs]; exact Or.inr rfl
    · rw [if_neg hs]; exact Or.inl hs

theorem load_from_redis_units (fmt : ℚ → String) (parse : String → Option ℚ)
    (dv : DefaultValues) (st : RedisStore) (p : LedgerMem × RedisStore)
    (h : load_from_redis fmt parse dv st = .ok p) :
    p.1.energy_used_unit = loadUnit st.energy_used_unit dv.energy_used_unit ∧
    p.1.co2_emissions_unit = loadUnit st.co2_emissions_unit dv.co2_emissions_unit := by
  unfold load_from_redis at h
  split at h
  · exact absurd h (by simp)
  · split at h
    · exact absurd h (by simp)
    · split at h
      · exact absurd h (by simp)
      · split at h
        · exact absurd h (by simp)
        · cases h
          exact ⟨rfl, rfl⟩

/-! # Claim theorems -/

/-- C1: for every ledger state backed by a faithful key-value store and every
delta pair (e, c), `update(e, c)` increases `energy_used` by exactly e and
`co2_emissions` by exactly c and appends each delta to its history list
(subject to the 10-entry truncation of the reload); after any sequence of 11
or more sequential updates, each history list has length exactly 10 and holds
the 10 most recent deltas in chronological order, and history length never
exceeds 10 after the operation completes. -/
theorem claim_C1_update_roundtrip (fmt : ℚ → String) (parse : String → Option ℚ)
    (hc : FaithfulCodec fmt parse) (eu cu : String) (m : LedgerMem) (e c : ℚ)
    (ds : List (ℚ × ℚ)) (hds : 11 ≤ ds.length) :
    (∃ m1 st1, gc_update fmt parse (mkDefaults eu cu) e c m = .ok (m1, st1) ∧
      m1.energy_used = m.energy_used + e ∧
      m1.co2_emissions = m.co2_emissions + c ∧
      m1.energy_used_list = takeLast10 (m.energy_used_list ++ [e]) ∧
      m1.co2_emissions_list = takeLast10 (m.co2_emissions_list ++ [c]) ∧
      m1.energy_used_list.length ≤ 10 ∧ m1.co2_emissions_list.length ≤ 10) ∧
    (∃ mn, gc_updateSeq fmt parse (mkDefaults eu cu) ds m = .ok mn ∧
      mn.energy_used = m.energy_used + (ds.map Prod.fst).sum ∧
      mn.co2_emissions = m.co2_emissions + (ds.map Prod.snd).sum ∧
      mn.energy_used_list = takeLast10 (ds.map Prod.fst) ∧
      mn.co2_emissions_list = takeLast10 (ds.map Prod.snd) ∧
      mn.energy_used_list.length = 10 ∧ mn.co2_emissions_list.length = 10) := by
  have hne : ds ≠ [] := by
    intro h
    rw [h] at hds
    exact absurd hds (by decide)
  have hfst : 10 ≤ (ds.map Prod.fst).length := by
    rw [List.length_map]; omega
  have hsnd : 10 ≤ (ds.map Prod.snd).length := by
    rw [List.length_map]; omega
  constructor
  · refine ⟨updateModel (mkDefaults eu cu) e c m, _,
      gc_update_eq fmt parse hc eu cu e c m, rfl, rfl, rfl, rfl, ?_, ?_⟩
    · rw [show (updateModel (mkDefaults eu cu) e c m).energy_used_list
        = takeLast10 (m.energy_used_list ++ [e]) from rfl, takeLast10_length]
      omega
    · rw [show (updateModel (mkDefaults eu cu) e c m).co2_emissions_list
        = takeLast10 (m.co2_emissions_list ++ [c]) from rfl, takeLast10_length]
      omega
  · refine ⟨seqModel (mkDefaults eu cu) ds m,
      gc_updateSeq_eq fmt parse hc eu cu ds m, ?_, ?_, ?_, ?_, ?_, ?_⟩
    · exact (seqModel_totals (mkDefaults eu cu) ds m).1
    · exact (seqModel_totals (mkDefaults eu cu) ds m).2
    · rw [(seqModel_lists (mkDefaults eu cu) ds hne m).1,
        takeLast10_append_ge _ _ hfst]
    · rw [(seqModel_lists (mkDefaults eu cu) ds hne m).2,
        takeLast10_append_ge _ _ hsnd]
    · rw [(seqModel_lists (mkDefaults eu cu) ds hne m).1,
        takeLast10_append_ge _ _ hfst, takeLast10_length, List.length_map]
      omega
    · rw [(seqModel_lists (mkDefaults eu cu) ds hne m).2,
        takeLast10_append_ge _ _ hsnd, takeLast10_length, List.length_map]
      omega

theorem claim_C1_witness :
    11 ≤ (List.replicate 11 ((1 : ℚ), (2 : ℚ))).length ∧
    (∃ mn, gc_updateSeq encQ decQ (mkDefaults "kWh" "kgCO2")
        (List.replicate 11 ((1 : ℚ), (2 : ℚ)))
        ⟨0, [], "kWh", 0, [], "kgCO2"⟩ = .ok mn ∧
      mn.energy_used_list.length = 10) := by
  constructor
  · decide
  · obtain ⟨mn, hok, _, _, _, _, hlen, _⟩ :=
      (claim_C1_update_roundtrip encQ decQ encQ_faithful "kWh" "kgCO2"
        ⟨0, [], "kWh", 0, [], "kgCO2"⟩ 1 2
        (List.replicate 11 ((1 : ℚ), (2 : ℚ))) (by decide)).2
    exact ⟨mn, hok, hlen⟩

/-- C2: in a series of N ≥ 1 windows of duration D > 0, the loop executes
exactly N windows, window 1 starts at the caller-supplied initial temperature,
and every window k > 1 starts at window k-1's returned final temperature. -/
theorem claim_C2_series_chaining (solver : OdeSolver) (mE mC : ℚ)
    (a w cI t0 : ℚ) (N D : ℤ) (st : ℚ) (hN : 1 ≤ N) (hD : 0 < D)
    (ws : List WindowRec)
    (hok : runSeriesWindows solver mE mC N D st a w cI t0 = .ok ws) :
    ws.length = N.toNat ∧ chainedFrom t0 ws := by
  unfold runSeriesWindows at hok
  rw [pyRangeLen_series N D hN hD] at hok
  exact seriesLoop_ok solver mE mC a w cI D st N.toNat t0 ws hok

theorem claim_C2_witness :
    (1 : ℤ) ≤ 2 ∧ (0 : ℤ) < 60 ∧
    ([⟨25, 25, 0, 0⟩, ⟨25, 25, 0, 0⟩] : List WindowRec).length = (2 : ℤ).toNat ∧
    chainedFrom 25 [⟨25, 25, 0, 0⟩, ⟨25, 25, 0, 0⟩] :=
  ⟨by decide, by decide,
    claim_C2_series_chaining constSolver 0 0 25 1 300 25 2 60 100
      (by decide) (by decide) [⟨25, 25, 0, 0⟩, ⟨25, 25, 0, 0⟩] (by with_unfolding_all rfl)⟩

/-- C3: `d_tc_dt` is deterministic and side-effect-free (a pure function of
its five arguments) and, for current ≥ 0, returns exactly
-(1/60) · a · (currentTemp - ambientTemp - b) with
a = (windSpeed²/1600) · 0.4 + 0.1 and b = (current^1.4/73785) · 130, the
formula stated by the specification. -/
theorem claim_C3_derivative_formula (tc t ta ws cI : ℝ) (h : 0 ≤ cI) :
    d_tc_dt tc t ta ws cI = derivative_spec tc t ta ws cI := rfl

theorem claim_C3_witness :
    (0 : ℝ) ≤ 300 ∧ d_tc_dt 25 0 25 1 300 = derivative_spec 25 0 25 1 300 :=
  ⟨by norm_num, claim_C3_derivative_formula 25 0 25 1 300 (by norm_num)⟩

/-- C4 counterexample: a simulation call with current = -10 < 0 that does not
raise `InvalidParameter`: with duration 60 and step 100 the time grid is the
single point 0, so the call returns the (finite) initial temperature 25
normally instead of failing. -/
theorem claim_C4_counterexample :
    simulate_cable_temperature constSolver 25 1 (-10) 25 60 100 = .ok 25 ∧
    simulate_cable_temperature constSolver 25 1 (-10) 25 60 100
      ≠ .error PyError.invalidParameter := by
  have h : simulate_cable_temperature constSolver 25 1 (-10) 25 60 100
      = .ok 25 := by with_unfolding_all rfl
  exact ⟨h, by simp [h]⟩

/-- C4 (amended): the code performs no validation of the current intensity:
for current < 0 (indeed for any arguments) neither the integration nor its
consumption wrapper ever produces the distinguished `InvalidParameter` error;
a negative current flows into the computation unchecked. -/
theorem claim_C4_no_current_validation (solver : OdeSolver) (mE mC : ℚ)
    (a w c t0 : ℚ) (dur : ℤ) (st : ℚ) (h : c < 0) :
    simulate_cable_temperature solver a w c t0 dur st
      ≠ .error PyError.invalidParameter ∧
    (simulate_cable_temperature_with_consumption solver mE mC a w c t0 dur st).1
      ≠ .error PyError.invalidParameter :=
  ⟨simulate_never_invalidParameter solver a w c t0 dur st,
    runWindow_never_invalidParameter solver mE mC a w c t0 dur st⟩

theorem claim_C4_witness :
    (-10 : ℚ) < 0 ∧
    (simulate_cable_temperature constSolver 25 1 (-10) 25 60 100
        ≠ .error PyError.invalidParameter ∧
      (simulate_cable_temperature_with_consumption constSolver 0 0
          25 1 (-10) 25 60 100).1 ≠ .error PyError.invalidParameter) :=
  ⟨by norm_num,
    claim_C4_no_current_validation constSolver 0 0 25 1 (-10) 25 60 100 (by norm_num)⟩

/-- C5 counterexample: `integrate` with duration 0 (and the default step 1e-6)
does fail, but with the index error from `tc_sol[-1]` on the empty time grid,
not with the distinguished `InvalidParameter` error the claim names. -/
theorem claim_C5_counterexample :
    simulate_cable_temperature constSolver 25 1 300 25 0 (1 / 1000000)
      = .error PyError.indexError ∧
    simulate_cable_temperature constSolver 25 1 300 25 0 (1 / 1000000)
      ≠ .error PyError.invalidParameter := by
  have h : simulate_cable_temperature constSolver 25 1 300 25 0 (1 / 1000000)
      = .error PyError.indexError := by with_unfolding_all rfl
  refine ⟨h, ?_⟩
  rw [h]
  simp

/-- C5 (amended): with duration ≤ 0 and step > 0 the operation does fail, but
via the empty time grid (`IndexError` from `tc_sol[-1]`, which the consumption
wrapper re-raises as its generic `ValueError`), and with step = 0 it fails
inside `np.arange`; no input makes it fail with `InvalidParameter` — no such
validation exists in the code. -/
theorem claim_C5_no_duration_validation (solver : OdeSolver)
    (hs : OdeintContract solver) (mE mC a w c t0 : ℚ) (dur : ℤ) (st : ℚ) :
    (dur ≤ 0 → 0 < st →
      simulate_cable_temperature solver a w c t0 dur st = .error PyError.indexError ∧
      (simulate_cable_temperature_with_consumption solver mE mC a w c t0 dur st).1
        = .error PyError.valueError) ∧
    (st = 0 →
      simulate_cable_temperature solver a w c t0 dur st = .error PyError.zeroStep) ∧
    simulate_cable_temperature solver a w c t0 dur st
      ≠ .error PyError.invalidParameter := by
  refine ⟨?_, ?_, simulate_never_invalidParameter solver a w c t0 dur st⟩
  · intro hd hst
    have h := simulate_empty_grid solver hs a w c t0 dur st hd hst
    exact ⟨h, runWindow_wraps_error solver mE mC a w c t0 dur st _ h⟩
  · intro h0
    rw [h0]
    exact simulate_zero_step solver a w c t0 dur

theorem claim_C5_witness :
    (0 : ℤ) ≤ 0 ∧ (0 : ℚ) < 1 ∧
    (simulate_cable_temperature constSolver 25 1 300 25 0 1
        = .error PyError.indexError ∧
      (simulate_cable_temperature_with_consumption constSolver 0 0
          25 1 300 25 0 1).1 = .error PyError.valueError) :=
  ⟨by decide, by decide,
    (claim_C5_no_duration_validation constSolver constSolver_contract 0 0
      25 1 300 25 0 1).1 (by decide) (by decide)⟩

/-- C6: `update_list(E, C, list_e, list_c)` increases `energy_used` by exactly
E and `co2_emissions` by exactly C — independent of the lengths or sums of the
two lists — and extends (not replaces) each history list by the provided
per-window list before the reload re-applies the 10-entry truncation. -/
theorem claim_C6_update_list (fmt : ℚ → String) (parse : String → Option ℚ)
    (hc : FaithfulCodec fmt parse) (eu cu : String) (m : LedgerMem)
    (E C : ℚ) (le lc : List ℚ) :
    ∃ m1 st1, gc_update_list fmt parse (mkDefaults eu cu) E C le lc m
        = .ok (m1, st1) ∧
      m1.energy_used = m.energy_used + E ∧
      m1.co2_emissions = m.co2_emissions + C ∧
      m1.energy_used_list = takeLast10 (m.energy_used_list ++ le) ∧
      m1.co2_emissions_list = takeLast10 (m.co2_emissions_list ++ lc) := by
  have h := gc_save_eq fmt parse hc (mkDefaults eu cu) rfl rfl
    { m with
      energy_used := m.energy_used + E
      co2_emissions := m.co2_emissions + C
      energy_used_list := m.energy_used_list ++ le
      co2_emissions_list := m.co2_emissions_list ++ lc }
  exact ⟨_, _, h, rfl, rfl, rfl, rfl⟩

theorem claim_C6_witness :
    ∃ m1 st1, gc_update_list encQ decQ (mkDefaults "kWh" "kgCO2") 5 7
        [1, 2, 3] [4] ⟨0, [], "kWh", 0, [], "kgCO2"⟩ = .ok (m1, st1) ∧
      m1.energy_used = 0 + 5 ∧ m1.co2_emissions = 0 + 7 ∧
      m1.energy_used_list = takeLast10 (([] : List ℚ) ++ [1, 2, 3]) ∧
      m1.co2_emissions_list = takeLast10 (([] : List ℚ) ++ [4]) :=
  claim_C6_update_list encQ decQ encQ_faithful "kWh" "kgCO2"
    ⟨0, [], "kWh", 0, [], "kgCO2"⟩ 5 7 [1, 2, 3] [4]

/-- C7 counterexample: a stored value Python's float() cannot parse does not
fall back to the default — it makes `_load_from_redis` raise `ValueError`:
with `energy_used` stored as "abc", the load errors instead of reading 0.0. -/
theorem claim_C7_counterexample :
    load_from_redis encQ pyFloat (mkDefaults "kWh" "kgCO2")
      { energy_used := some "abc", co2_emissions := none,
        energy_used_list := none, co2_emissions_list := none,
        energy_used_unit := none, co2_emissions_unit := none }
      = .error PyError.valueError := by
  rfl

/-- C7 (amended): ledger reads fall back to the defaults only when a stored
value is absent or the empty string (Python falsiness) — those paths raise
nothing; but a non-empty stored value that float() rejects makes the read
raise `ValueError` rather than defaulting: load errors are not always
absorbed. -/
theorem claim_C7_load_fallbacks (parse : String → Option ℚ) (d : ℚ)
    (dl : List ℚ) :
    loadScalar parse none d = .ok d ∧
    loadScalar parse (some "") d = .ok d ∧
    loadList parse none dl = .ok dl ∧
    loadList parse (some []) dl = .ok dl ∧
    (∀ s, s ≠ "" → pyFloat s = none →
      loadScalar pyFloat (some s) d = .error PyError.valueError) := by
  refine ⟨rfl, rfl, rfl, rfl, ?_⟩
  intro s hs hp
  show (if s = "" then Except.ok d else parseTok pyFloat s)
    = Except.error PyError.valueError
  rw [if_neg hs]
  unfold parseTok
  rw [hp]

theorem claim_C7_witness :
    ("abc" ≠ "") ∧ pyFloat "abc" = none ∧
    loadScalar pyFloat (some "abc") 0 = .error PyError.valueError :=
  ⟨by decide, by decide,
    (claim_C7_load_fallbacks pyFloat 0 []).2.2.2.2 "abc" (by decide) (by decide)⟩

/-- C8: `reset()` then `read()` yields zero totals and empty history lists,
and the unit strings are left unchanged by reset (for any ledger state
satisfying the unit invariant every load establishes: a unit string is
nonempty or equals the configured default — see `loadUnit_inv`). -/
theorem claim_C8_reset (fmt : ℚ → String) (parse : String → Option ℚ)
    (hc : FaithfulCodec fmt parse) (eu cu : String) (m : LedgerMem)
    (h1 : m.energy_used_unit ≠ "" ∨ m.energy_used_unit = eu)
    (h2 : m.co2_emissions_unit ≠ "" ∨ m.co2_emissions_unit = cu) :
    gc_reset fmt parse (mkDefaults eu cu) m
      = .ok ({ energy_used := 0, energy_used_list := [],
               energy_used_unit := m.energy_used_unit,
               co2_emissions := 0, co2_emissions_list := [],
               co2_emissions_unit := m.co2_emissions_unit },
          save_to_redis fmt
            { energy_used := 0, energy_used_list := [],
              energy_used_unit := m.energy_used_unit,
              co2_emissions := 0, co2_emissions_list := [],
              co2_emissions_unit := m.co2_emissions_unit }) := by
  have h := gc_save_eq fmt parse hc (mkDefaults eu cu) rfl rfl
    { m with
      energy_used := (0 : ℚ)
      co2_emissions := (0 : ℚ)
      energy_used_list := ([] : List ℚ)
      co2_emissions_list := ([] : List ℚ) }
  have hmem : reloadNorm (mkDefaults eu cu)
      { m with
        energy_used := (0 : ℚ)
        co2_emissions := (0 : ℚ)
        energy_used_list := ([] : List ℚ)
        co2_emissions_list := ([] : List ℚ) }
      = { energy_used := 0, energy_used_list := [],
          energy_used_unit := m.energy_used_unit,
          co2_emissions := 0, co2_emissions_list := [],
          co2_emissions_unit := m.co2_emissions_unit } := by
    unfold reloadNorm
    rcases h1 with h1 | h1 <;> rcases h2 with h2 | h2 <;>
      simp [h1, h2, takeLast10, mkDefaults]
  rw [show gc_reset fmt parse (mkDefaults eu cu) m
    = gc_save fmt parse (mkDefaults eu cu)
      { m with
        energy_used := (0 : ℚ)
        co2_emissions := (0 : ℚ)
        energy_used_list := ([] : List ℚ)
        co2_emissions_list := ([] : List ℚ) } from rfl, h, hmem]

theorem claim_C8_witness :
    (("kWh" : String) ≠ "" ∨ ("kWh" : String) = "kWh") ∧
    gc_reset encQ decQ (mkDefaults "kWh" "kgCO2") ⟨3, [1], "kWh", 4, [2], "kgCO2"⟩
      = .ok ({ energy_used := 0, energy_used_list := [],
               energy_used_unit := "kWh",
               co2_emissions := 0, co2_emissions_list := [],
               co2_emissions_unit := "kgCO2" },
          save_to_redis encQ
            { energy_used := 0, energy_used_list := [],
              energy_used_unit := "kWh",
              co2_emissions := 0, co2_emissions_list := [],
              co2_emissions_unit := "kgCO2" }) :=
  ⟨Or.inl (by decide),
    claim_C8_reset encQ decQ encQ_faithful "kWh" "kgCO2"
      ⟨3, [1], "kWh", 4, [2], "kgCO2"⟩ (Or.inl (by decide)) (Or.inl (by decide))⟩

/-- C9: on every exit path of the consumption wrapper, the meter scope opened
before the integration is closed exactly once (event trace `[start, stop]` on
both the success and the failure path); when the integration fails, the meter
is still stopped and the error is re-raised to the caller (as the generic
wrapped `ValueError`), the failed window's measurement outcome being
discarded (the error carries no energy/CO2 fields). -/
theorem claim_C9_meter_scope (solver : OdeSolver) (mE mC a w c t0 : ℚ)
    (dur : ℤ) (st : ℚ) :
    (simulate_cable_temperature_with_consumption solver mE mC a w c t0 dur st).2
      = [MeterEvent.start, MeterEvent.stop] ∧
    (∀ e, simulate_cable_temperature solver a w c t0 dur st = .error e →
      (simulate_cable_temperature_with_consumption solver mE mC a w c t0 dur st).1
        = .error PyError.valueError) := by
  constructor
  · unfold simulate_cable_temperature_with_consumption
    split <;> rfl
  · intro e h
    exact runWindow_wraps_error solver mE mC a w c t0 dur st e h

theorem claim_C9_witness :
    simulate_cable_temperature constSolver 25 1 300 25 0 1
      = .error PyError.indexError ∧
    (simulate_cable_temperature_with_consumption constSolver 3 4 25 1 300 25 0 1).1
      = .error PyError.valueError :=
  ⟨by with_unfolding_all rfl,
    (claim_C9_meter_scope constSolver 3 4 25 1 300 25 0 1).2
      PyError.indexError (by with_unfolding_all rfl)⟩

/-- C10: for every duration > 0 and step ≥ duration, the integration succeeds
and returns exactly the caller-supplied initial temperature: the grid
`np.arange(0, duration, step)` excludes the endpoint and contains only the
point t = 0, and by the odeint contract the solution's single row is y0. -/
theorem claim_C10_degenerate_grid (solver : OdeSolver)
    (hs : OdeintContract solver) (a w c t0 : ℚ) (dur : ℤ) (st : ℚ)
    (hd : 0 < dur) (hds : (dur : ℚ) ≤ st) :
    simulate_cable_temperature solver a w c t0 dur st = .ok t0 ∧
    np_arange 0 (dur : ℚ) st = .ok [0] :=
  ⟨simulate_single_point solver hs a w c t0 dur st hd hds,
    np_arange_single dur st hd hds⟩

theorem claim_C10_witness :
    (0 : ℤ) < 60 ∧ ((60 : ℤ) : ℚ) ≤ 100 ∧
    simulate_cable_temperature constSolver 25 1 300 25 60 100 = .ok 25 :=
  ⟨by decide, by norm_num,
    (claim_C10_degenerate_grid constSolver constSolver_contract 25 1 300 25
      60 100 (by decide) (by norm_num)).1⟩
